import Mathlib

/-!
Shallow embedding of the client-side view controller in
`src/frontend/app.js` (the skillpath repository), together with theorems
settling the specification claims about it.

Modelling conventions:
* JSON payloads become Lean structures; a field the code may find absent
  (JavaScript `undefined`) becomes an `Option`.
* JavaScript truthiness on strings is `s != ""` on present strings and
  false on absent ones; on numbers, `n != 0`; arrays are always truthy.
* Interpolating an absent value into a template renders the text
  "undefined", as JavaScript string interpolation does.
* A network round trip is an input to the function modelling the event
  handler: the handler is a pure function of the responses it awaits.
* Code that can throw a `TypeError` (a property access on `undefined`)
  is modelled in `Except String`.
-/

namespace SkillPath

/-! ## Data model (state object `AppState`, app.js lines 4-11) -/

/-- A task row from `GET /progress/:id/tasks` (fields read by
`displayTasks`, app.js lines 595-634). -/
structure Task where
  item_id : Nat
  item_name : String
  item_type : String
  status : String
  completion_date : Option String
  encouragement_message : Option String
  deriving Repr, DecidableEq

/-- The optional `progress` sub-object carried by a roadmap item
(app.js line 478). -/
structure ItemProgress where
  status : Option String
  completion_date : Option String
  encouragement_message : Option String
  deriving Repr, DecidableEq

/-- A roadmap item, with every field the templates of `renderItem`
(app.js lines 477-533) read. All fields may be absent in the JSON. -/
structure Item where
  id : Option Nat
  name : Option String
  type : Option String
  description : Option String
  rationale : Option String
  platform : Option String
  duration : Option String
  target_score : Option String
  timing : Option String
  when : Option String
  companies : Option (List String)
  provider : Option String
  skills_demonstrated : Option (List String)
  progress : Option ItemProgress
  deriving Repr, DecidableEq

/-- A roadmap phase (app.js lines 445-460). -/
structure Phase where
  phase : Option Nat
  title : Option String
  focus : Option String
  courses : Option (List Item)
  projects : Option (List Item)
  certificates : Option (List Item)
  internships : Option (List Item)
  tests : Option (List Item)
  deriving Repr, DecidableEq

/-- The enriched roadmap payload cached in `AppState.roadmap`
(app.js line 389). -/
structure Roadmap where
  phases : Option (List Phase)
  deriving Repr, DecidableEq

/-- The cached current user. The source stores `{ id: userId, ...data }`
(app.js line 319); the claims only observe the `id` field and nullness,
so the spread draft fields are not tracked. -/
structure CurrentUser where
  id : Nat
  deriving Repr, DecidableEq

/-- The module-level mutable state object (app.js lines 5-11).
`profileData` is declared but never written by the module. -/
structure AppState where
  currentUser : Option CurrentUser
  currentPage : String
  roadmap : Option Roadmap
  progressData : Option (List Task)
  profileData : Option Unit
  deriving Repr, DecidableEq

/-- The state at load time: `currentUser: null, currentPage: 'onboarding',
roadmap: null, progressData: null, profileData: null`. -/
def AppState.init : AppState :=
  { currentUser := none
    currentPage := "onboarding"
    roadmap := none
    progressData := none
    profileData := none }

/-! ## Identity fallback (app.js lines 353-356) -/

/-- `async function getUserIdByEmail(email) { return 1; }` — the helper
used when registration reports the user already exists. -/
def getUserIdByEmail (email : String) : Nat := 1

/-! ## Onboarding submission sequence (app.js lines 257-350) -/

/-- The `user` object optionally present in the register response body,
read as `registerData.user?.id` (app.js line 302). -/
structure RegisterUser where
  id : Option Nat
  deriving Repr, DecidableEq

/-- Body of the `POST /users/register` response. -/
structure RegisterBody where
  user : Option RegisterUser
  deriving Repr, DecidableEq

/-- The register response as the handler observes it: `ok`, `status`,
and the parsed JSON body. -/
structure RegisterResponse where
  ok : Bool
  status : Nat
  body : RegisterBody
  deriving Repr, DecidableEq

/-- The optional chain `registerData.user?.id`: absent when `user` is
absent or has no `id`. -/
def RegisterBody.chainedId (b : RegisterBody) : Option Nat :=
  b.user.bind (fun u => u.id)

/-- `registerData.user?.id || (await getUserIdByEmail(data.email))`
(app.js line 302): the chained id when present and truthy (nonzero),
otherwise the fallback lookup. -/
def resolveUserId (b : RegisterBody) (email : String) : Nat :=
  match b.chainedId with
  | some i => if i == 0 then getUserIdByEmail email else i
  | none => getUserIdByEmail email

/-- Result of a submission: either the caught error message
(surfaced through `showToast`/`showStatusMessage`, app.js lines 344-349)
or success. -/
inductive SubmitOutcome where
  | failure (message : String)
  | success
  deriving Repr, DecidableEq

/-- Which of the three sequential calls were issued, and with which
`user_id` the dependent calls were made. -/
structure SubmitTrace where
  registerCalled : Bool
  onboardCalled : Bool
  onboardUserId : Option Nat
  roadmapCalled : Bool
  roadmapUserId : Option Nat
  deriving Repr, DecidableEq

/-- Full observable result of one submit: the state after the handler,
the outcome, and the network trace. -/
structure SubmitResult where
  state : AppState
  outcome : SubmitOutcome
  trace : SubmitTrace
  deriving Repr, DecidableEq

/-- The `ok || status === 409` test on the register response, negated in
the source as `!registerResponse.ok && registerResponse.status !== 409`
(app.js line 297). -/
def registerPassed (r : RegisterResponse) : Bool :=
  r.ok || r.status == 409

/-- The form submit handler (app.js lines 257-350), with the three
network round trips as inputs: the register response, whether
`POST /users/onboard` was `ok`, and whether `POST /growth-path/generate`
was `ok`. Mirrors the source control flow: a failed register check or
onboard check throws before `AppState.currentUser` is assigned; the
assignment at line 319 happens before the roadmap call, so a roadmap
failure is caught with the session already set. -/
def submitOnboarding (st : AppState) (email : String)
    (register : RegisterResponse) (onboardOk : Bool) (roadmapOk : Bool) :
    SubmitResult :=
  if !register.ok && !(register.status == 409) then
    { state := st
      outcome := .failure "Failed to register user"
      trace := ⟨true, false, none, false, none⟩ }
  else
    let userId := resolveUserId register.body email
    if !onboardOk then
      { state := st
        outcome := .failure "Failed to complete onboarding"
        trace := ⟨true, true, some userId, false, none⟩ }
    else
      let st1 := { st with currentUser := some ⟨userId⟩ }
      if !roadmapOk then
        { state := st1
          outcome := .failure "Failed to generate growth path"
          trace := ⟨true, true, some userId, true, some userId⟩ }
      else
        { state := st1
          outcome := .success
          trace := ⟨true, true, some userId, true, some userId⟩ }

/-! ## Progress summary rendering (app.js lines 566-593) -/

/-- The summary payload from `GET /progress/:id/summary`. -/
structure ProgressSummary where
  total : Nat
  completed : Nat
  in_progress : Nat
  deriving Repr, DecidableEq

/-- JavaScript `Math.round` on a nonnegative value: round half up,
i.e. the floor of `x + 1/2`. -/
def jsMathRound (x : ℚ) : ℤ := ⌊x + 1 / 2⌋

/-- The percentage computed by `displayProgressSummary`:
`summary.total > 0 ? Math.round((summary.completed / summary.total) * 100) : 0`
(app.js lines 569-571). -/
def summaryPercentage (s : ProgressSummary) : ℤ :=
  if s.total > 0 then
    jsMathRound ((s.completed : ℚ) / (s.total : ℚ) * 100)
  else 0

/-- The markup built by `displayProgressSummary` (app.js lines 573-590). -/
def displayProgressSummary (s : ProgressSummary) : String :=
  "<div class=\"progress-stat\"><div class=\"progress-stat-value\">" ++
    toString s.total ++
    "</div><div class=\"progress-stat-label\">Total Tasks</div></div>" ++
  "<div class=\"progress-stat\"><div class=\"progress-stat-value\">" ++
    toString s.completed ++
    "</div><div class=\"progress-stat-label\">Completed</div></div>" ++
  "<div class=\"progress-stat\"><div class=\"progress-stat-value\">" ++
    toString s.in_progress ++
    "</div><div class=\"progress-stat-label\">In Progress</div></div>" ++
  "<div class=\"progress-stat\"><div class=\"progress-stat-value\">" ++
    toString (summaryPercentage s) ++
    "%</div><div class=\"progress-stat-label\">Completion Rate</div></div>"

/-! ## Multi-step form protocol (app.js lines 89-172) -/

/-- `const totalSteps = 4;` (app.js line 93). -/
def totalSteps : Nat := 4

/-- A form control inside the current step, as the validation loop sees
it: its `type` attribute and the result of `checkValidity()`
(app.js lines 137-150). -/
structure FormInput where
  type : String
  checkValidity : Bool
  deriving Repr, DecidableEq

/-- The loop's validity flag: every input is either hidden (skipped at
line 139) or passes `checkValidity()`. -/
def stepIsValid (inputs : List FormInput) : Bool :=
  inputs.all (fun input => input.type == "hidden" || input.checkValidity)

/-- `firstInvalid`: the first non-hidden input failing `checkValidity()`
(app.js lines 144-149). -/
def firstInvalid (inputs : List FormInput) : Option FormInput :=
  inputs.find? (fun input => !(input.type == "hidden") && !input.checkValidity)

/-- Observable effect of one click on the Next button. -/
structure NextClickResult where
  step : Nat
  focused : Option FormInput
  errorToast : Bool
  deriving Repr, DecidableEq

/-- The `nextBtn` click handler (app.js lines 127-163): validate the
current step's inputs; if valid advance (only when below `totalSteps`),
otherwise stay, focus the first invalid field and show an error toast. -/
def nextBtnClick (currentStep : Nat) (inputs : List FormInput) :
    NextClickResult :=
  if stepIsValid inputs then
    { step := if currentStep < totalSteps then currentStep + 1 else currentStep
      focused := none
      errorToast := false }
  else
    { step := currentStep
      focused := firstInvalid inputs
      errorToast := true }

/-- The `prevBtn` click handler (app.js lines 165-172): retreat only
when above step 1. -/
def prevBtnClick (currentStep : Nat) : Nat :=
  if currentStep > 1 then currentStep - 1 else currentStep

/-- A user event on the multi-step form; a `next` event carries the
inputs of the current step with their validity. -/
inductive FormEvent where
  | next (inputs : List FormInput)
  | prev
  deriving Repr, DecidableEq

/-- One event's effect on the step counter. -/
def formStep (currentStep : Nat) : FormEvent → Nat
  | .next inputs => (nextBtnClick currentStep inputs).step
  | .prev => prevBtnClick currentStep

/-- The step counter after a sequence of events, starting from
`let currentStep = 1` (app.js line 92). -/
def runForm (events : List FormEvent) : Nat :=
  events.foldl formStep 1

/-- Which navigation controls `updateStepVisibility` shows
(app.js lines 116-124). -/
structure StepDisplay where
  prevVisible : Bool
  nextVisible : Bool
  submitVisible : Bool
  deriving Repr, DecidableEq

/-- `updateStepVisibility` (app.js lines 100-125): the Back button shows
above step 1; at the last step the Next button is replaced by Submit. -/
def updateStepVisibility (currentStep : Nat) : StepDisplay :=
  { prevVisible := currentStep > 1
    nextVisible := !(currentStep == totalSteps)
    submitVisible := currentStep == totalSteps }

/-! ## Task list filtering (app.js lines 595-601 and 681-695) -/

/-- The filtering at the head of `displayTasks` (app.js lines 598-601):
`let filteredTasks = tasks; if (filter !== 'all') filteredTasks =
tasks.filter(t => t.item_type === filter);`. -/
def filteredTasks (tasks : List Task) (filter : String) : List Task :=
  if !(filter == "all") then
    tasks.filter (fun t => t.item_type == filter)
  else tasks

/-- Observable effect of one filter-button click
(`initProgressFilters`, app.js lines 681-695). -/
structure FilterClickResult where
  rendered : Option (List Task)
  networkCalls : List String
  deriving Repr, DecidableEq

/-- A filter-button click: re-render the cached `AppState.progressData`
through `displayTasks` when present; the handler body contains no
`fetch`, so the network trace is empty. -/
def filterClick (st : AppState) (filter : String) : FilterClickResult :=
  match st.progressData with
  | some tasks => { rendered := some (filteredTasks tasks filter), networkCalls := [] }
  | none => { rendered := none, networkCalls := [] }

/-! ## Photo upload validation (app.js lines 177-220) -/

/-- JavaScript `String.prototype.startsWith`: a character-level prefix
test. -/
def jsStartsWith (s p : String) : Bool := p.data.isPrefixOf s.data

/-- The selected file as the change handler reads it: MIME `type` and
`size` in bytes. -/
structure JsFile where
  type : String
  size : Nat
  deriving Repr, DecidableEq

/-- Observable effect of the photo `change` handler. -/
structure PhotoChangeResult where
  accepted : Bool
  errorToast : Option String
  base64Value : String
  networkCalls : List String
  deriving Repr, DecidableEq

/-- The `photoInput` change handler (app.js lines 182-219): reject a
non-`image/*` MIME type, then reject a size strictly over
`2 * 1024 * 1024` bytes; both rejections toast an error and return
before the `FileReader` runs, leaving the stored base64 value
(`photoBase64.value`, initially `stored`) untouched. An accepted file
is read and its data URL (`dataUrl`) stored. The handler body contains
no `fetch`, so the network trace is always empty. -/
def photoInputChange (stored : String) (file : JsFile) (dataUrl : String) :
    PhotoChangeResult :=
  if !(jsStartsWith file.type "image/") then
    { accepted := false
      errorToast := some "Please upload a valid image file"
      base64Value := stored
      networkCalls := [] }
  else if file.size > 2 * 1024 * 1024 then
    { accepted := false
      errorToast := some "Image is too large (max 2MB)"
      base64Value := stored
      networkCalls := [] }
  else
    { accepted := true
      errorToast := none
      base64Value := dataUrl
      networkCalls := [] }

/-! ## Rendering helpers (JavaScript template semantics) -/

/-- Interpolating a possibly-absent string into a template: an absent
value renders as the text "undefined". -/
def jsStr (o : Option String) : String := o.getD "undefined"

/-- Interpolating a possibly-absent number. -/
def jsNumStr (o : Option Nat) : String :=
  match o with
  | some n => toString n
  | none => "undefined"

/-- `value || fallback` on a possibly-absent string, then interpolated:
absent and empty strings are falsy. -/
def jsOrStr (o : Option String) (fallback : String) : String :=
  match o with
  | some s => if s == "" then fallback else s
  | none => fallback

/-- `xs?.join(', ') || fallback`: absent arrays give `undefined` (falsy)
and an empty array joins to the falsy empty string, so both fall back. -/
def jsJoinOr (o : Option (List String)) (fallback : String) : String :=
  match o with
  | some l =>
    let joined := String.intercalate ", " l
    if joined == "" then fallback else joined
  | none => fallback

/-- JavaScript truthiness of a possibly-absent string. -/
def strTruthy (o : Option String) : Bool :=
  match o with
  | some s => !(s == "")
  | none => false

/-- JavaScript truthiness of a possibly-absent array (arrays are always
truthy when present). -/
def listTruthy (o : Option (List String)) : Bool := o.isSome

/-! ## Analysis rendering (app.js lines 401-435) -/

/-- The `profile.analysis` payload; each list the template maps over may
be absent in the JSON. -/
structure Analysis where
  strengths : Option (List String)
  gaps : Option (List String)
  career_paths : Option (List String)
  learning_tips : Option (List String)
  deriving Repr, DecidableEq

/-- `xs.map(x => <li>...</li>).join('')` with no presence guard: calling
`.map` on an absent field throws a `TypeError`. -/
def jsMapLi (o : Option (List String)) : Except String String :=
  match o with
  | some xs => .ok (String.join (xs.map (fun s => "<li>" ++ s ++ "</li>")))
  | none => .error "TypeError: Cannot read properties of undefined (reading map)"

/-- One card of the analysis grid. -/
def analysisCard (title body : String) : String :=
  "<div class=\"analysis-card\"><h3>" ++ title ++ "</h3><ul>" ++ body ++ "</ul></div>"

/-- `displayAnalysis` (app.js lines 401-435): maps over `strengths`,
`gaps`, `career_paths` and `learning_tips` with no guard, so an absent
field makes the function throw instead of rendering. -/
def displayAnalysis (analysis : Analysis) : Except String String := do
  let strengths ← jsMapLi analysis.strengths
  let gaps ← jsMapLi analysis.gaps
  let careers ← jsMapLi analysis.career_paths
  let tips ← jsMapLi analysis.learning_tips
  .ok ("<h2>Your Profile Analysis</h2><div class=\"analysis-grid\">" ++
    analysisCard "💪 Strengths" strengths ++
    analysisCard "🎯 Areas to Develop" gaps ++
    analysisCard "🚀 Career Paths" careers ++
    analysisCard "📚 Learning Tips" tips ++ "</div>")

/-! ## Roadmap rendering (app.js lines 437-533) -/

/-- The type-specific details block of `renderItem`
(app.js lines 480-511). -/
def itemDetails (item : Item) (type : String) : String :=
  if type == "course" then
    "<div class=\"item-details\">📍 " ++ jsStr item.platform ++
      " | ⏱️ " ++ jsOrStr item.duration "Self-paced" ++ "</div>"
  else if type == "test" then
    "<div class=\"item-details\">🎯 Target: " ++ jsStr item.target_score ++
      " | 📅 " ++ jsStr item.timing ++ "</div>"
  else if type == "internship" then
    "<div class=\"item-details\">📅 " ++ jsStr item.when ++
      " | 🏢 " ++ jsJoinOr item.companies "Various companies" ++ "</div>"
  else if type == "certificate" then
    "<div class=\"item-details\">🏫 " ++ jsStr item.provider ++
      " | 📅 " ++ jsStr item.timing ++ "</div>"
  else if type == "project" then
    "<div class=\"item-details\">🛠️ Skills: " ++
      jsJoinOr item.skills_demonstrated "Multiple skills" ++ "</div>"
  else ""

/-- `renderItem` (app.js lines 477-533). The default
`item.progress || { status: 'not_started' }` only applies when the
whole `progress` object is absent; a present progress object without a
`status` makes `progress.status.replace('_', ' ')` throw. -/
def renderItem (item : Item) (type : String) : Except String String :=
  let progress := item.progress.getD ⟨some "not_started", none, none⟩
  match progress.status with
  | none => .error "TypeError: Cannot read properties of undefined (reading replace)"
  | some status =>
    .ok ("<div class=\"item-card\" data-item-id=\"" ++ jsNumStr item.id ++
      "\"><div class=\"item-header\"><div class=\"item-type\">" ++ type ++
      "</div></div><div class=\"item-name\">" ++
      (match item.name with
       | some s => if s == "" then jsStr item.type else s
       | none => jsStr item.type) ++
      "</div>" ++ itemDetails item type ++
      (match item.description with
       | some d => if d == "" then "" else "<div class=\"item-details\">" ++ d ++ "</div>"
       | none => "") ++
      "<div class=\"item-rationale\">💡 " ++ jsStr item.rationale ++
      "</div><div class=\"item-progress\"><span class=\"status-badge status-" ++
      status ++ "\">" ++ status.replace "_" " " ++ "</span>" ++
      (if status == "completed" && strTruthy progress.encouragement_message then
        "<div class=\"encouragement-message\">" ++
          jsStr progress.encouragement_message ++ "</div>"
       else "") ++
      "</div></div>")

/-- `renderPhaseItems` (app.js lines 466-475): absent or empty item
lists render nothing. -/
def renderPhaseItems (title : String) (items : Option (List Item))
    (type : String) : Except String String :=
  match items with
  | none => .ok ""
  | some l =>
    if l.isEmpty then .ok ""
    else do
      let rendered ← l.mapM (fun item => renderItem item type)
      .ok ("<h3>" ++ title ++ "</h3><div class=\"items-grid\">" ++
        String.join rendered ++ "</div>")

/-- One phase card of `displayRoadmap` (app.js lines 445-460). -/
def renderPhase (p : Phase) : Except String String := do
  let courses ← renderPhaseItems "Courses 📚" p.courses "course"
  let projects ← renderPhaseItems "Projects 💻" p.projects "project"
  let certificates ← renderPhaseItems "Certificates 🏆" p.certificates "certificate"
  let internships ← renderPhaseItems "Internships 💼" p.internships "internship"
  let tests ← renderPhaseItems "Tests 📝" p.tests "test"
  .ok ("<div class=\"phase-card\"><div class=\"phase-header\"><div><h2>" ++
    jsStr p.title ++ "</h2><span class=\"phase-badge\">Phase " ++
    jsNumStr p.phase ++ "</span></div></div><p class=\"phase-focus\">Focus: " ++
    jsStr p.focus ++ "</p>" ++ courses ++ projects ++ certificates ++
    internships ++ tests ++ "</div>")

/-- The empty-state markup of `displayRoadmap` (app.js line 441). -/
def roadmapEmptyState : String :=
  "<p class=\"empty-state\">No roadmap data available</p>"

/-- `displayRoadmap` (app.js lines 437-464): the guard
`!roadmap || !roadmap.phases` yields the fixed empty-state placeholder;
otherwise the phase cards are rendered and joined. -/
def displayRoadmap (roadmap : Option Roadmap) : Except String String :=
  match roadmap with
  | none => .ok roadmapEmptyState
  | some r =>
    match r.phases with
    | none => .ok roadmapEmptyState
    | some phases => do
      let rendered ← phases.mapM renderPhase
      .ok (String.join rendered)

/-- The pure state threading of a `displayRoadmap` call: the source body
(app.js lines 437-464) writes only `container.innerHTML` and never
assigns to `AppState`, so the ambient state passes through unchanged. -/
def displayRoadmapCall (st : AppState) (roadmap : Option Roadmap) :
    AppState × Except String String :=
  (st, displayRoadmap roadmap)

/-! ## Task list rendering (app.js lines 595-634) -/

/-- The empty-state markup of `displayTasks` (app.js line 604). -/
def tasksEmptyState : String := "<p class=\"empty-state\">No tasks found</p>"

/-- One task card of `displayTasks` (app.js lines 608-631). -/
def renderTaskCard (task : Task) : String :=
  "<div class=\"task-card\"><div class=\"task-info\"><div class=\"task-name\">" ++
  task.item_name ++ "</div><div class=\"task-meta\"><span class=\"item-type\">" ++
  task.item_type ++ "</span><span class=\"status-badge status-" ++ task.status ++
  "\">" ++ task.status.replace "_" " " ++ "</span>" ++
  (match task.completion_date with
   | some d => if d == "" then "" else "<span>✓ " ++ d ++ "</span>"
   | none => "") ++
  "</div>" ++
  (match task.encouragement_message with
   | some m => if m == "" then "" else "<div class=\"encouragement-message\">" ++ m ++ "</div>"
   | none => "") ++
  "</div><div class=\"task-actions\">" ++
  (if !(task.status == "completed") then
    "<button class=\"btn btn-secondary\" onclick=\"updateTaskStatus('" ++
      toString task.item_id ++ "', 'in_progress')\">▶ Start</button>" ++
    "<button class=\"btn btn-success\" onclick=\"updateTaskStatus('" ++
      toString task.item_id ++ "', 'completed')\">✓ Complete</button>"
   else "<span>✓ Completed</span>") ++
  "</div></div>"

/-- `displayTasks` (app.js lines 595-634): filter the cached list, show
the fixed empty state when nothing is left, else render the cards. -/
def displayTasks (tasks : List Task) (filter : String) : String :=
  let filtered := filteredTasks tasks filter
  if filtered.isEmpty then tasksEmptyState
  else String.join (filtered.map renderTaskCard)

/-! ## Resume rendering (app.js lines 735-838) -/

/-- The `resume.header` object. -/
structure ResumeHeader where
  name : Option String
  email : Option String
  phone : Option String
  location : Option String
  linkedin : Option String
  github : Option String
  portfolio : Option String
  deriving Repr, DecidableEq

/-- The `resume.education` object. -/
structure ResumeEducation where
  university : Option String
  graduation_year : Option String
  major : Option String
  gpa : Option String
  deriving Repr, DecidableEq

/-- A resume experience or project entry; `bullets` is mapped over with
no guard. -/
structure ResumeEntry where
  title : Option String
  name : Option String
  date : Option String
  bullets : Option (List String)
  deriving Repr, DecidableEq

/-- A resume certification entry. -/
structure ResumeCert where
  name : Option String
  date : Option String
  deriving Repr, DecidableEq

/-- The resume payload from `GET /profile/:id/resume`. -/
structure Resume where
  header : Option ResumeHeader
  education : Option ResumeEducation
  skills : Option (List String)
  experience : Option (List ResumeEntry)
  projects : Option (List ResumeEntry)
  certifications : Option (List ResumeCert)
  deriving Repr, DecidableEq

/-- The empty-state markup of `displayResume` (app.js line 739). -/
def resumeEmptyState : String :=
  "<p class=\"empty-state\">Loading resume data...</p>"

/-- The `contactParts` array of `displayResume` (app.js lines 744-750):
each truthy header field contributes one part, joined with " | ". -/
def contactParts (h : ResumeHeader) : List String :=
  (if strTruthy h.email then [jsStr h.email] else []) ++
  (if strTruthy h.phone then [jsStr h.phone] else []) ++
  (if strTruthy h.location then [jsStr h.location] else []) ++
  (if strTruthy h.linkedin then
    ["<a href=\"" ++ jsStr h.linkedin ++ "\" target=\"_blank\">LinkedIn</a>"] else []) ++
  (if strTruthy h.github then
    ["<a href=\"" ++ jsStr h.github ++ "\" target=\"_blank\">GitHub</a>"] else []) ++
  (if strTruthy h.portfolio then
    ["<a href=\"" ++ jsStr h.portfolio ++ "\" target=\"_blank\">Portfolio</a>"] else [])

/-- An experience or project block (app.js lines 787-820): the header
line, then `bullets.map(...)` with no guard. -/
def renderResumeEntry (title : String) (entry : ResumeEntry) : Except String String :=
  match entry.bullets with
  | none => .error "TypeError: Cannot read properties of undefined (reading map)"
  | some bullets =>
    .ok ("<div class=\"resume-entry\"><div class=\"resume-entry-header\"><span>" ++
      title ++ "</span><span>" ++ jsStr entry.date ++
      "</span></div><ul class=\"resume-list\">" ++
      String.join (bullets.map (fun b => "<li>" ++ b ++ "</li>")) ++
      "</ul></div>")

/-- `displayResume` (app.js lines 735-838): the guard
`!resume || !resume.header` yields the fixed placeholder; otherwise the
header, education, skills, experience, projects and certifications
sections are rendered, each guarded on presence (and nonemptiness for
the lists). -/
def displayResume (resume : Option Resume) : Except String String :=
  match resume with
  | none => .ok resumeEmptyState
  | some r =>
    match r.header with
    | none => .ok resumeEmptyState
    | some h => do
      let headerHtml :=
        "<div class=\"resume-header\"><div class=\"resume-name\">" ++
        jsStr h.name ++ "</div><div class=\"resume-contact\">" ++
        String.intercalate " | " (contactParts h) ++ "</div></div>"
      let educationHtml :=
        match r.education with
        | some e =>
          "<div class=\"resume-section-title\">Education</div>" ++
          "<div class=\"resume-entry\"><div class=\"resume-entry-header\"><span>" ++
          jsStr e.university ++ "</span><span>" ++ jsStr e.graduation_year ++
          "</span></div><div class=\"resume-entry-subheader\"><span>" ++
          jsStr e.major ++ "</span></div>" ++
          (if strTruthy e.gpa then "<div>GPA: " ++ jsStr e.gpa ++ "</div>" else "") ++
          "</div>"
        | none => ""
      let skillsHtml :=
        match r.skills with
        | some skills =>
          if skills.isEmpty then ""
          else "<div class=\"resume-section-title\">Skills</div><div>" ++
            String.intercalate ", " skills ++ "</div>"
        | none => ""
      let experienceHtml ←
        match r.experience with
        | some entries =>
          if entries.isEmpty then pure ""
          else do
            let blocks ← entries.mapM (fun e => renderResumeEntry (jsStr e.title) e)
            pure ("<div class=\"resume-section-title\">Experience</div>" ++
              String.join blocks)
        | none => pure ""
      let projectsHtml ←
        match r.projects with
        | some entries =>
          if entries.isEmpty then pure ""
          else do
            let blocks ← entries.mapM (fun e => renderResumeEntry (jsStr e.name) e)
            pure ("<div class=\"resume-section-title\">Projects</div>" ++
              String.join blocks)
        | none => pure ""
      let certsHtml :=
        match r.certifications with
        | some certs =>
          if certs.isEmpty then ""
          else "<div class=\"resume-section-title\">Certifications</div>" ++
            String.join (certs.map (fun c =>
              "<div class=\"resume-entry\"><div class=\"resume-entry-header\"><span>" ++
              jsStr c.name ++ "</span><span>" ++ jsStr c.date ++
              "</span></div></div>"))
        | none => ""
      .ok (headerHtml ++ educationHtml ++ skillsHtml ++ experienceHtml ++
        projectsHtml ++ certsHtml)

/-! ## LinkedIn rendering (app.js lines 840-893) -/

/-- A LinkedIn post idea; `hashtags` is mapped over with no guard. -/
structure PostIdea where
  topic : Option String
  draft : Option String
  hashtags : Option (List String)
  deriving Repr, DecidableEq

/-- The LinkedIn suggestions payload. -/
structure LinkedInData where
  profile_summary : Option String
  post_ideas : Option (List PostIdea)
  skills_to_add : Option (List String)
  deriving Repr, DecidableEq

/-- The empty-state markup of `displayLinkedIn` (app.js line 844). -/
def linkedinEmptyState : String :=
  "<p class=\"empty-state\">No LinkedIn suggestions available yet</p>"

/-- One post-idea card (app.js lines 867-875). -/
def renderPostIdea (post : PostIdea) : Except String String :=
  match post.hashtags with
  | none => .error "TypeError: Cannot read properties of undefined (reading map)"
  | some tags =>
    .ok ("<div class=\"post-idea-card\"><div class=\"post-idea-topic\">" ++
      jsStr post.topic ++ "</div><div class=\"post-idea-draft\">" ++
      jsStr post.draft ++ "</div><div class=\"post-hashtags\">" ++
      String.intercalate " " (tags.map (fun tag => "#" ++ tag)) ++
      "</div></div>")

/-- Truthiness of a possibly-absent list of post ideas. -/
def postListTruthy (o : Option (List PostIdea)) : Bool := o.isSome

/-- `displayLinkedIn` (app.js lines 840-893): the guard
`!data || (!data.post_ideas && !data.profile_summary && !data.skills_to_add)`
yields the fixed placeholder; otherwise each truthy, nonempty section is
rendered. -/
def displayLinkedIn (data : Option LinkedInData) : Except String String :=
  match data with
  | none => .ok linkedinEmptyState
  | some d =>
    if !postListTruthy d.post_ideas && !strTruthy d.profile_summary &&
        !listTruthy d.skills_to_add then
      .ok linkedinEmptyState
    else do
      let summaryHtml :=
        if strTruthy d.profile_summary then
          "<div class=\"linkedin-section\"><h3>Profile Summary</h3><div>" ++
          jsStr d.profile_summary ++ "</div></div>"
        else ""
      let postsHtml ←
        match d.post_ideas with
        | some posts =>
          if posts.isEmpty then pure ""
          else do
            let cards ← posts.mapM renderPostIdea
            pure ("<div class=\"linkedin-section\"><h3>Post Ideas</h3>" ++
              String.join cards ++ "</div>")
        | none => pure ""
      let skillsHtml :=
        match d.skills_to_add with
        | some skills =>
          if skills.isEmpty then ""
          else "<div class=\"linkedin-section\"><h3>Skills to Add to Profile</h3><div class=\"skills-list\">" ++
            String.join (skills.map (fun s => "<span class=\"skill-tag\">" ++ s ++ "</span>")) ++
            "</div></div>"
        | none => ""
      .ok (summaryHtml ++ postsHtml ++ skillsHtml)

/-! ## Theorems settling the claims -/

/-- C1 (counterexample). The claim says a failure of any of the three
sequential steps leaves the session state unset. Concretely: with a
successful registration (id 5), a successful onboarding call and a
failed roadmap generation, the submission fails with the surfaced
roadmap message, yet `AppState.currentUser` ends as `some 5`, different
from the `none` it held before the submission began. -/
theorem onboarding_partial_failure_counterexample :
    (submitOnboarding AppState.init "a@x.com" ⟨true, 200, ⟨some ⟨some 5⟩⟩⟩ true false).outcome =
      .failure "Failed to generate growth path" ∧
    (submitOnboarding AppState.init "a@x.com" ⟨true, 200, ⟨some ⟨some 5⟩⟩⟩ true false).state.currentUser =
      some ⟨5⟩ ∧
    AppState.init.currentUser = none ∧
    some (⟨5⟩ : CurrentUser) ≠ (none : Option CurrentUser) := by
  exact ⟨rfl, rfl, rfl, by simp⟩

/-- C1 (amended). Full failure semantics of the submission sequence:
register is always called; onboarding is called exactly when the
register check passes (`ok` or status 409); roadmap generation is
called exactly when onboarding also succeeded; the session state is
left exactly as before unless both register and onboarding succeeded,
in which case it is set (even when the roadmap step then fails); and
the outcome surfaces the message of the first failing step, each later
step being skipped. -/
theorem submitOnboarding_semantics (st : AppState) (email : String)
    (register : RegisterResponse) (onboardOk roadmapOk : Bool) :
    (submitOnboarding st email register onboardOk roadmapOk).trace.registerCalled = true ∧
    (submitOnboarding st email register onboardOk roadmapOk).trace.onboardCalled =
      registerPassed register ∧
    (submitOnboarding st email register onboardOk roadmapOk).trace.roadmapCalled =
      (registerPassed register && onboardOk) ∧
    (submitOnboarding st email register onboardOk roadmapOk).state.currentUser =
      (if registerPassed register && onboardOk
       then some ⟨resolveUserId register.body email⟩ else st.currentUser) ∧
    (submitOnboarding st email register onboardOk roadmapOk).outcome =
      (if !registerPassed register then .failure "Failed to register user"
       else if !onboardOk then .failure "Failed to complete onboarding"
       else if !roadmapOk then .failure "Failed to generate growth path"
       else .success) := by
  rcases register with ⟨ok, status, body⟩
  by_cases h : status = 409 <;>
    cases ok <;> cases onboardOk <;> cases roadmapOk <;>
      simp [submitOnboarding, registerPassed, h]

/-- C2. When the register check passes and the onboarding call
succeeds but roadmap generation fails, the cached current user has
nevertheless been set to the identifier produced by registration at
the point the failure is handled, so it is not `none`. -/
theorem roadmap_failure_session_set (st : AppState) (email : String)
    (register : RegisterResponse) (h : registerPassed register = true) :
    (submitOnboarding st email register true false).state.currentUser =
      some ⟨resolveUserId register.body email⟩ ∧
    (submitOnboarding st email register true false).outcome =
      .failure "Failed to generate growth path" ∧
    (submitOnboarding st email register true false).state.currentUser ≠ none := by
  rcases register with ⟨ok, status, body⟩
  simp only [registerPassed, Bool.or_eq_true, beq_iff_eq] at h
  have hcond : (!ok && !((status : Nat) == 409)) = false := by
    rcases h with h | h <;> simp [h]
  simp [submitOnboarding, hcond]

/-- C2 (witness). A concrete run: registration succeeds with id 7,
onboarding succeeds, roadmap generation fails, and the session is set. -/
theorem roadmap_failure_session_set_witness :
    (submitOnboarding AppState.init "a@x.com" ⟨true, 200, ⟨some ⟨some 7⟩⟩⟩ true false).state.currentUser ≠
      none :=
  (roadmap_failure_session_set AppState.init "a@x.com" ⟨true, 200, ⟨some ⟨some 7⟩⟩⟩ rfl).2.2

/-- C3. Advancing the multi-step form: if some non-hidden input of the
current step fails its constraint check, the step does not change, the
first such input is focused and an error toast is shown; if every
non-hidden input passes and the step is below the last one, the step
advances by one with no toast. The validity flag is false exactly when
some non-hidden input fails `checkValidity()`. -/
theorem nextBtn_validation (currentStep : Nat) (inputs : List FormInput) :
    (stepIsValid inputs = false →
      (nextBtnClick currentStep inputs).step = currentStep ∧
      (nextBtnClick currentStep inputs).focused = firstInvalid inputs ∧
      (nextBtnClick currentStep inputs).errorToast = true) ∧
    (stepIsValid inputs = true → currentStep < totalSteps →
      (nextBtnClick currentStep inputs).step = currentStep + 1 ∧
      (nextBtnClick currentStep inputs).errorToast = false) ∧
    (stepIsValid inputs = false ↔
      ∃ input ∈ inputs, input.type ≠ "hidden" ∧ input.checkValidity = false) := by
  refine ⟨fun h => by simp [nextBtnClick, h],
    fun h hlt => by simp [nextBtnClick, h, hlt], ?_⟩
  rw [← Bool.not_eq_true]
  simp [stepIsValid, List.all_eq_true]

/-- C3 (witness). A step with one invalid text input stays at step 2;
a step whose only failing input is hidden advances from 2 to 3. -/
theorem nextBtn_validation_witness :
    (nextBtnClick 2 [⟨"text", false⟩]).step = 2 ∧
    (nextBtnClick 2 [⟨"text", true⟩, ⟨"hidden", false⟩]).step = 3 := by
  exact ⟨((nextBtn_validation 2 [⟨"text", false⟩]).1 (by decide)).1,
    ((nextBtn_validation 2 [⟨"text", true⟩, ⟨"hidden", false⟩]).2.1 (by decide) (by decide)).1⟩

/-- C4. Filtering the cached task list: the filter "all" returns the
cached list unchanged; any other filter value returns exactly
`List.filter` by `item_type` equality — an order-preserving sublist
containing precisely the tasks of that type — and no filter click
issues a network call. -/
theorem task_filtering (tasks : List Task) (filter : String) :
    filteredTasks tasks "all" = tasks ∧
    (filter ≠ "all" →
      filteredTasks tasks filter = tasks.filter (fun t => t.item_type == filter) ∧
      List.Sublist (filteredTasks tasks filter) tasks ∧
      (∀ t, t ∈ filteredTasks tasks filter ↔ t ∈ tasks ∧ t.item_type = filter)) ∧
    (∀ st f, (filterClick st f).networkCalls = []) := by
  refine ⟨by simp [filteredTasks], fun h => ?_, fun st f => ?_⟩
  · have hb : (filter == "all") = false := by simpa using h
    refine ⟨by simp [filteredTasks, hb], ?_, ?_⟩
    · simp only [filteredTasks, hb, Bool.not_false, if_true]
      exact List.filter_sublist tasks
    · intro t
      simp [filteredTasks, hb, List.mem_filter]
  · cases hp : st.progressData <;> simp [filterClick, hp]

/-- C4 (witness). Filtering a concrete two-task list by "course". -/
theorem task_filtering_witness :
    filteredTasks [⟨1, "A", "course", "not_started", none, none⟩,
        ⟨2, "B", "project", "not_started", none, none⟩] "course" =
      List.filter (fun t => t.item_type == "course")
        [⟨1, "A", "course", "not_started", none, none⟩,
         ⟨2, "B", "project", "not_started", none, none⟩] :=
  ((task_filtering [⟨1, "A", "course", "not_started", none, none⟩,
      ⟨2, "B", "project", "not_started", none, none⟩] "course").2.1 (by decide)).1

/-- C5. The rendered completion percentage is 0 whenever `total` is 0
(no division occurs), is `Math.round(completed / total * 100)` on a
positive total, and renders 25 for the summary with total 4 and
completed 1. -/
theorem completion_percentage (c i t : Nat) :
    summaryPercentage ⟨0, c, i⟩ = 0 ∧
    summaryPercentage ⟨4, 1, 0⟩ = 25 ∧
    summaryPercentage ⟨t + 1, c, i⟩ =
      jsMathRound ((c : ℚ) / ((t : ℚ) + 1) * 100) := by
  refine ⟨by simp [summaryPercentage],
    by norm_num [summaryPercentage, jsMathRound], ?_⟩
  simp [summaryPercentage]

/-- C6 (counterexample). The claim says every 409 submission proceeds
with an identifier obtained from the fallback lookup. Concretely: when
the 409 response body itself carries a user id 5, the onboarding call
proceeds with 5, not with the fallback result
`getUserIdByEmail "a@x.com" = 1`. -/
theorem conflict_fallback_counterexample :
    (submitOnboarding AppState.init "a@x.com" ⟨false, 409, ⟨some ⟨some 5⟩⟩⟩ true true).trace.onboardCalled =
      true ∧
    (submitOnboarding AppState.init "a@x.com" ⟨false, 409, ⟨some ⟨some 5⟩⟩⟩ true true).trace.onboardUserId =
      some 5 ∧
    getUserIdByEmail "a@x.com" = 1 ∧ (5 : Nat) ≠ 1 := by
  exact ⟨rfl, rfl, rfl, by decide⟩

/-- C6 (amended). A register response with HTTP status 409 never aborts
the submission: the onboarding call is always issued, with the
identifier resolved by `registerData.user?.id || getUserIdByEmail(...)` —
the fallback lookup result exactly when the body carries no truthy user
id, and the body's own id otherwise. -/
theorem conflict_tolerated (st : AppState) (email : String) (body : RegisterBody)
    (onboardOk roadmapOk : Bool) :
    (submitOnboarding st email ⟨false, 409, body⟩ onboardOk roadmapOk).trace.onboardCalled = true ∧
    (submitOnboarding st email ⟨false, 409, body⟩ onboardOk roadmapOk).trace.onboardUserId =
      some (resolveUserId body email) ∧
    (body.chainedId = none →
      (submitOnboarding st email ⟨false, 409, body⟩ onboardOk roadmapOk).trace.onboardUserId =
        some (getUserIdByEmail email)) ∧
    (∀ idv, body.chainedId = some idv → idv ≠ 0 →
      (submitOnboarding st email ⟨false, 409, body⟩ onboardOk roadmapOk).trace.onboardUserId =
        some idv) := by
  have h2 : (submitOnboarding st email ⟨false, 409, body⟩ onboardOk roadmapOk).trace.onboardUserId =
      some (resolveUserId body email) := by
    cases onboardOk <;> cases roadmapOk <;> rfl
  refine ⟨by cases onboardOk <;> cases roadmapOk <;> rfl, h2, fun h => ?_, fun idv h hnz => ?_⟩
  · rw [h2]; simp [resolveUserId, h]
  · rw [h2]; simp [resolveUserId, h, hnz]

/-- C6 (witness). A 409 whose body has no user id resolves to the
fallback identifier; a 409 whose body carries id 9 resolves to 9. -/
theorem conflict_tolerated_witness :
    (submitOnboarding AppState.init "a@x.com" ⟨false, 409, ⟨none⟩⟩ true true).trace.onboardCalled =
      true ∧
    (submitOnboarding AppState.init "a@x.com" ⟨false, 409, ⟨none⟩⟩ true true).trace.onboardUserId =
      some (getUserIdByEmail "a@x.com") ∧
    (submitOnboarding AppState.init "b@y.com" ⟨false, 409, ⟨some ⟨some 9⟩⟩⟩ false false).trace.onboardUserId =
      some 9 := by
  exact ⟨(conflict_tolerated AppState.init "a@x.com" ⟨none⟩ true true).1,
    (conflict_tolerated AppState.init "a@x.com" ⟨none⟩ true true).2.2.1 rfl,
    (conflict_tolerated AppState.init "b@y.com" ⟨some ⟨some 9⟩⟩ false false).2.2.2 9 rfl (by decide)⟩

/-- C7 (counterexample). The claim says every display function yields a
fixed empty-state placeholder when expected fields are absent.
Concretely: `displayAnalysis` on a payload whose `strengths` field is
absent throws a `TypeError` (calling `.map` on `undefined`) instead of
rendering a placeholder. -/
theorem displayAnalysis_throws_on_absent_field :
    displayAnalysis ⟨none, none, none, none⟩ =
      Except.error "TypeError: Cannot read properties of undefined (reading map)" := rfl

/-- C7 (amended). The display functions with top-level guards do render
fixed empty-state placeholders on absent payloads — `displayRoadmap` on
an absent roadmap or absent `phases`, `displayResume` on an absent
resume or absent `header`, `displayLinkedIn` on absent data or all
sections falsy, `displayTasks` on an empty list — `renderItem`
tolerates a wholly absent `progress` object, and rendering leaves the
session state unchanged; but a present payload missing an inner
expected field can make rendering fail, as `displayAnalysis` shows. -/
theorem display_empty_state_guards :
    displayRoadmap none = Except.ok roadmapEmptyState ∧
    displayRoadmap (some ⟨none⟩) = Except.ok roadmapEmptyState ∧
    displayResume none = Except.ok resumeEmptyState ∧
    displayResume (some ⟨none, none, none, none, none, none⟩) = Except.ok resumeEmptyState ∧
    displayLinkedIn none = Except.ok linkedinEmptyState ∧
    displayLinkedIn (some ⟨none, none, none⟩) = Except.ok linkedinEmptyState ∧
    displayTasks [] "all" = tasksEmptyState ∧
    (∀ (item : Item) (type : String), ∃ html,
      renderItem { item with progress := none } type = Except.ok html) ∧
    (∀ st roadmap, (displayRoadmapCall st roadmap).1 = st) := by
  refine ⟨rfl, rfl, rfl, rfl, rfl, rfl, rfl,
    fun item type => ⟨_, rfl⟩, fun st roadmap => rfl⟩

/-- C8 helper. One form event keeps the step counter inside
`[1, totalSteps]`. -/
theorem formStep_bounds (s : Nat) (e : FormEvent) (h1 : 1 ≤ s) (h4 : s ≤ totalSteps) :
    1 ≤ formStep s e ∧ formStep s e ≤ totalSteps := by
  cases e with
  | next inputs =>
    simp only [formStep, nextBtnClick]
    split <;> simp only []
    · split
      · omega
      · omega
    · omega
  | prev =>
    simp only [formStep, prevBtnClick]
    split <;> omega

/-- C8 helper. Folding form events from any in-range step stays in
range. -/
theorem runForm_go (events : List FormEvent) :
    ∀ s, 1 ≤ s → s ≤ totalSteps →
      1 ≤ events.foldl formStep s ∧ events.foldl formStep s ≤ totalSteps := by
  induction events with
  | nil => intro s h1 h4; exact ⟨h1, h4⟩
  | cons e rest ih =>
    intro s h1 h4
    have hb := formStep_bounds s e h1 h4
    exact ih (formStep s e) hb.1 hb.2

/-- C8. The step counter starts at 1 and, under every sequence of
advance and retreat events, stays in `[1, totalSteps]` (with
`totalSteps = 4`); the submit affordance is shown exactly at the final
step. -/
theorem step_counter_invariant (events : List FormEvent) :
    runForm [] = 1 ∧
    1 ≤ runForm events ∧ runForm events ≤ totalSteps ∧
    ((updateStepVisibility (runForm events)).submitVisible = true ↔
      runForm events = totalSteps) := by
  have h := runForm_go events 1 (by norm_num) (by norm_num [totalSteps])
  refine ⟨rfl, h.1, h.2, ?_⟩
  simp [updateStepVisibility]

/-- C9. The photo change handler rejects a file whose MIME type does
not start with "image/", or whose size strictly exceeds
2 * 1024 * 1024 bytes, with an error toast, the stored base64 value
untouched and no network call; an image-typed file of at most that
size is accepted. -/
theorem photo_upload_validation (stored : String) (file : JsFile) (dataUrl : String) :
    (jsStartsWith file.type "image/" = false →
      photoInputChange stored file dataUrl =
        ⟨false, some "Please upload a valid image file", stored, []⟩) ∧
    (jsStartsWith file.type "image/" = true → 2 * 1024 * 1024 < file.size →
      photoInputChange stored file dataUrl =
        ⟨false, some "Image is too large (max 2MB)", stored, []⟩) ∧
    (jsStartsWith file.type "image/" = true → file.size ≤ 2 * 1024 * 1024 →
      photoInputChange stored file dataUrl = ⟨true, none, dataUrl, []⟩) := by
  refine ⟨fun h => by simp [photoInputChange, h],
    fun h hs => by simp [photoInputChange, h, hs],
    fun h hs => by
      simp [photoInputChange, h, show ¬(2 * 1024 * 1024 < file.size) from not_lt.mpr hs]⟩

/-- C9 (witness). A text file is rejected for its type; an image one
byte over 2 MiB is rejected for its size; an image of exactly 2 MiB is
accepted. -/
theorem photo_upload_validation_witness :
    photoInputChange "" ⟨"text/plain", 10⟩ "data:x" =
      ⟨false, some "Please upload a valid image file", "", []⟩ ∧
    photoInputChange "" ⟨"image/png", 2097153⟩ "data:x" =
      ⟨false, some "Image is too large (max 2MB)", "", []⟩ ∧
    photoInputChange "" ⟨"image/png", 2097152⟩ "data:x" = ⟨true, none, "data:x", []⟩ := by
  exact ⟨(photo_upload_validation "" ⟨"text/plain", 10⟩ "data:x").1 (by decide),
    (photo_upload_validation "" ⟨"image/png", 2097153⟩ "data:x").2.1 rfl (by decide),
    (photo_upload_validation "" ⟨"image/png", 2097152⟩ "data:x").2.2 rfl (by decide)⟩

/-- C10. The fallback identity lookup is the constant function 1: every
email maps to identifier 1, so any two 409 fallback paths resolve to
the same identity. -/
theorem getUserIdByEmail_constant (email email2 : String) :
    getUserIdByEmail email = 1 ∧ getUserIdByEmail email = getUserIdByEmail email2 :=
  ⟨rfl, rfl⟩

end SkillPath
